import Mathlib

/-!
Verification of the omni-sdk backend ingestion pipeline
(`src/backend/src`): grid-bucket aggregation (`HeatmapRepository.ts`),
batch validation (`routes/ingest.ts`), the worker batch loop
(`worker.ts`) and the ingestion queue policy (`queue/IngestionQueue.ts`).

Every definition is a shallow embedding of the corresponding TypeScript
source. JavaScript numbers are modelled as `ℚ` (all relevant arithmetic
is exact), database rows as Lean structures, and the database itself as
explicit state (a list of rows) passed through the operations.
-/

namespace OmniSdk

/-! ## Grid bucket (HeatmapRepository.calculateGridBucket)

```ts
private calculateGridBucket(norm: number): number {
  const gridSize = 50;
  const bucket = Math.floor(norm * gridSize);
  return Math.min(Math.max(bucket, 0), gridSize - 1);
}
```
-/

/-- `HeatmapRepository.calculateGridBucket`: floor of `norm * 50`,
clamped to `[0, 49]`. -/
def calculateGridBucket (norm : ℚ) : ℤ :=
  let gridSize : ℤ := 50
  let bucket : ℤ := ⌊norm * (gridSize : ℚ)⌋
  min (max bucket 0) (gridSize - 1)

/-! ## Worker batch loop (worker.ts)

The worker's job handler iterates over `job.data.events`; each call to
`routeEvent` is wrapped in try/catch, a failure is pushed onto
`results.errors` keyed by the event's `eventId`, and iteration
continues. After the loop, if `results.failed === job.data.events.length`
the handler throws (signalling retry to the queue); otherwise it returns
the summary. `routeEvent` dispatches to external processors, so the
per-event outcome is a parameter `proc` of the embedding. -/

/-- An event as seen by the worker loop: only `eventId` is consulted by
the loop itself (routing happens inside `proc`). -/
structure WEvent where
  eventId : String
  deriving Repr, DecidableEq

/-- The worker's `results` record: `{succeeded, failed, errors}` with
`errors : Array<{eventId, error}>`. -/
structure BatchSummary where
  succeeded : ℕ
  failed : ℕ
  errors : List (String × String)
  deriving Repr, DecidableEq

/-- One iteration of the worker's per-event loop body: try
`proc event`; on success increment `succeeded`, on error increment
`failed` and push `{eventId, error}`. -/
def processOne (proc : WEvent → Except String Unit) (r : BatchSummary)
    (e : WEvent) : BatchSummary :=
  match proc e with
  | .ok _ => { r with succeeded := r.succeeded + 1 }
  | .error msg =>
      { r with failed := r.failed + 1, errors := r.errors ++ [(e.eventId, msg)] }

/-- The worker's per-event loop over the whole batch, starting from
`{succeeded: 0, failed: 0, errors: []}`. -/
def processEvents (proc : WEvent → Except String Unit)
    (events : List WEvent) : BatchSummary :=
  events.foldl (processOne proc) ⟨0, 0, []⟩

/-- The worker's job handler: process all events, then throw
(`Except.error`) iff `failed == events.length`, else return the summary. -/
def workerHandler (proc : WEvent → Except String Unit) (batchId : String)
    (events : List WEvent) : Except String BatchSummary :=
  if (processEvents proc events).failed = events.length then
    .error ("All events in batch " ++ batchId ++ " failed")
  else
    .ok (processEvents proc events)

/-- Whether a handler outcome signals retry to the durable queue
(the handler threw). -/
def signalsRetry (r : Except String BatchSummary) : Bool :=
  match r with
  | .error _ => true
  | .ok _ => false

/-- Auxiliary characterisation of the worker fold from an arbitrary
accumulator. -/
theorem processEvents_fold (proc : WEvent → Except String Unit)
    (events : List WEvent) (r : BatchSummary) :
    events.foldl (processOne proc) r =
      { succeeded := r.succeeded +
          (events.countP fun e => (proc e).toBool)
        failed := r.failed +
          (events.countP fun e => !(proc e).toBool)
        errors := r.errors ++
          (events.filterMap fun e =>
            match proc e with
            | .ok _ => none
            | .error msg => some (e.eventId, msg)) } := by
  induction events generalizing r with
  | nil => simp
  | cons e es ih =>
      simp only [List.foldl_cons, List.countP_cons, List.filterMap_cons]
      rw [ih]
      cases h : proc e <;>
        simp [processOne, h, Except.toBool, BatchSummary.mk.injEq] <;>
        omega

/-- The summary counts: `succeeded` counts the events whose processor
succeeded, `failed` the rest, and `errors` lists exactly the failed
events' `(eventId, message)` pairs in batch order. -/
theorem processEvents_eq (proc : WEvent → Except String Unit)
    (events : List WEvent) :
    processEvents proc events =
      { succeeded := events.countP fun e => (proc e).toBool
        failed := events.countP fun e => !(proc e).toBool
        errors := events.filterMap fun e =>
            match proc e with
            | .ok _ => none
            | .error msg => some (e.eventId, msg) } := by
  simpa using processEvents_fold proc events ⟨0, 0, []⟩

/-- C1: the grid-bucket computation returns `⌊xNorm * 50⌋` clamped to
`[0, 49]`; `0 ↦ 0`, `0.999 ↦ 49`, `1 ↦ 49`, `-0.1 ↦ 0`, and the result
lies in `[0, 49]` for every input. -/
theorem calculateGridBucket_clamped_floor :
    (∀ x : ℚ, calculateGridBucket x = min (max ⌊x * 50⌋ 0) 49 ∧
      0 ≤ calculateGridBucket x ∧ calculateGridBucket x ≤ 49) ∧
    calculateGridBucket 0 = 0 ∧
    calculateGridBucket (999 / 1000) = 49 ∧
    calculateGridBucket 1 = 49 ∧
    calculateGridBucket (-(1 / 10)) = 0 := by
  refine ⟨fun x => ⟨rfl, ?_, ?_⟩,
    by norm_num [calculateGridBucket], by norm_num [calculateGridBucket],
    by norm_num [calculateGridBucket], by norm_num [calculateGridBucket]⟩
  · exact le_min (le_max_right _ _) (by norm_num)
  · exact min_le_right _ _

/-- A boolean predicate and its negation partition a list. -/
theorem countP_add_countP_not (p : WEvent → Bool) (l : List WEvent) :
    l.countP p + l.countP (fun e => !p e) = l.length := by
  induction l with
  | nil => simp
  | cons e es ih => cases h : p e <;> simp [List.countP_cons, h] <;> omega

/-- C4: every event of the batch is classified (succeeded + failed =
total), a processor error is recorded against that event's `eventId`
without stopping the loop, and `errors` holds exactly one entry per
failed event, in batch order. -/
theorem processEvents_isolation (proc : WEvent → Except String Unit)
    (events : List WEvent) :
    (processEvents proc events).succeeded + (processEvents proc events).failed
        = events.length ∧
    (processEvents proc events).errors.length
        = (processEvents proc events).failed ∧
    (processEvents proc events).errors =
      events.filterMap fun e =>
        match proc e with
        | .ok _ => none
        | .error msg => some (e.eventId, msg) := by
  rw [processEvents_eq]
  refine ⟨?_, ?_, rfl⟩
  · exact countP_add_countP_not (fun e => (proc e).toBool) events
  · show List.length _ = events.countP _
    induction events with
    | nil => simp
    | cons e es ih =>
        cases h : proc e <;> simp [h, List.countP_cons, Except.toBool, ih]

/-- C3: for a non-empty batch, the handler throws (signals retry) iff
every event failed; on partial success or full success it returns the
summary without retry. -/
theorem workerHandler_retry_iff (proc : WEvent → Except String Unit)
    (batchId : String) (events : List WEvent) (hne : events ≠ []) :
    (signalsRetry (workerHandler proc batchId events) = true ↔
      (processEvents proc events).failed = events.length) ∧
    ((processEvents proc events).failed < events.length →
      workerHandler proc batchId events = .ok (processEvents proc events)) ∧
    ((processEvents proc events).failed = 0 →
      workerHandler proc batchId events = .ok (processEvents proc events)) := by
  refine ⟨?_, ?_, ?_⟩
  · unfold workerHandler signalsRetry
    by_cases h : (processEvents proc events).failed = events.length <;> simp [h]
  · intro h
    unfold workerHandler
    simp [Nat.ne_of_lt h]
  · intro h
    have hlen : events.length ≠ 0 := by
      have := List.length_pos.mpr hne
      omega
    unfold workerHandler
    rw [h, if_neg (Ne.symm hlen)]

/-- Witness for `workerHandler_retry_iff`: a 2-event batch with one
failing processor is not retried and yields the summary
`{succeeded := 1, failed := 1, errors := [("b", "boom")]}`. -/
theorem workerHandler_retry_iff_witness :
    workerHandler (fun e => if e.eventId = "a" then .ok () else .error "boom")
        "b1" [⟨"a"⟩, ⟨"b"⟩] = .ok ⟨1, 1, [("b", "boom")]⟩ := by
  have h := (workerHandler_retry_iff
      (fun e => if e.eventId = "a" then .ok () else .error "boom")
      "b1" [⟨"a"⟩, ⟨"b"⟩] (by decide)).2.1 (by decide)
  rw [h]
  rfl

/-! ## Durable queue (queue/IngestionQueue.ts, routes/ingest.ts)

The queue engine is the BullMQ library, which is not part of this
repository; only its configuration is in the source
(`defaultJobOptions: {attempts: 3, backoff: {type: "exponential",
delay: 2000}, removeOnComplete: true, removeOnFail: false}` in
`IngestionQueue.ts`, and `queue.add("ingest", batch, {jobId:
batch.batchId})` in `ingest.ts`). The enqueue / consume semantics below
are therefore modelled from the spec (§4.3 Durable Queue). -/

/-- A queue job's lifecycle state. -/
inductive JobState
  | waiting
  | active
  | completed
  | failed
  | delayed
  deriving Repr, DecidableEq

/-- A queue job: idempotency key (`jobId`), payload, state,
`attemptsMade`. -/
structure QJob (α : Type) where
  id : String
  payload : α
  state : JobState
  attemptsMade : ℕ
  deriving Repr, DecidableEq

/-- The batch payload enqueued by the ingest route: `batchId`,
`timestamp`, `events`. -/
structure IncomingBatch where
  batchId : String
  timestamp : ℤ
  events : List WEvent
  deriving Repr, DecidableEq

/-- Modelled from the spec: `enqueue(batch, idempotencyKey)` of the
Durable Queue (the BullMQ `Queue.add` with an explicit `jobId` is not
repository code) — "if a job with the same idempotencyKey already
exists (completed, active, or waiting), the call is a no-op that
returns the existing job reference"; otherwise the batch is persisted
as a new waiting job. -/
def enqueue {α : Type} (qs : List (QJob α)) (key : String) (batch : α) :
    List (QJob α) × QJob α :=
  match qs.find? (fun j => j.id == key) with
  | some j => (qs, j)
  | none =>
      let j : QJob α := ⟨key, batch, .waiting, 0⟩
      (qs ++ [j], j)

/-- `ingestHandler`'s enqueue call: the job id is the batch's
`batchId` (`queue.add("ingest", batch, {jobId: batch.batchId})`). -/
def ingestEnqueue (qs : List (QJob IncomingBatch)) (batch : IncomingBatch) :
    List (QJob IncomingBatch) × QJob IncomingBatch :=
  enqueue qs batch.batchId batch

/-- The job options configured on the ingestion queue
(`IngestionQueue.ts`, `defaultJobOptions`). -/
structure QueueConfig where
  attempts : ℕ
  backoffBase : ℕ
  removeOnComplete : Bool
  removeOnFail : Bool
  deriving Repr, DecidableEq

/-- `defaultJobOptions` from `createIngestionQueue`: 3 attempts,
exponential backoff with 2000 ms base, purge completed, retain failed. -/
def ingestionQueueOptions : QueueConfig :=
  { attempts := 3
    backoffBase := 2000
    removeOnComplete := true
    removeOnFail := false }

/-- Outcome the worker handler signals to the queue for one attempt. -/
inductive HandlerResult
  | ok
  | retry
  deriving Repr, DecidableEq

/-- Modelled from the spec: one consumption attempt of the Durable
Queue (§4.3) — on `ok` the job is marked completed; on `retry` it is
re-scheduled with exponential backoff (`base * 2^(attemptsMade-1)`, so
2000 ms then 4000 ms) while attempts remain, and marked failed once the
attempt ceiling is reached. Returns the updated job and the backoff
delay emitted, if any. -/
def runAttempt {α : Type} (cfg : QueueConfig) (h : α → HandlerResult)
    (j : QJob α) : QJob α × Option ℕ :=
  match h j.payload with
  | .ok => ({ j with state := .completed, attemptsMade := j.attemptsMade + 1 },
      none)
  | .retry =>
      let made := j.attemptsMade + 1
      if made < cfg.attempts then
        ({ j with state := .delayed, attemptsMade := made },
          some (cfg.backoffBase * 2 ^ (made - 1)))
      else
        ({ j with state := .failed, attemptsMade := made }, none)

/-- Modelled from the spec: repeated consumption of one job until it
leaves the retry loop (fuel-bounded). Returns the final job and the
list of backoff delays used, in order. -/
def runJob {α : Type} (cfg : QueueConfig) (h : α → HandlerResult) :
    ℕ → QJob α → QJob α × List ℕ
  | 0, j => (j, [])
  | n + 1, j =>
      let step := runAttempt cfg h j
      match step.1.state with
      | .delayed =>
          let rest := runJob cfg h n { step.1 with state := .waiting }
          (rest.1, step.2.toList ++ rest.2)
      | _ => (step.1, step.2.toList)

/-- Modelled from the spec: whether a finished job stays in the queue
store — failed jobs are retained unless `removeOnFail`, completed jobs
are purged when `removeOnComplete`. -/
def retainedAfterFinish {α : Type} (cfg : QueueConfig) (j : QJob α) : Bool :=
  match j.state with
  | .completed => !cfg.removeOnComplete
  | .failed => !cfg.removeOnFail
  | _ => true

/-- C5: enqueue is idempotent on the job id: if a job with the key
exists (any state) the call returns it and changes nothing; for a fresh
key, enqueuing twice yields exactly one job with that key and the
second call returns the first call's job; the ingest route's key is the
batch's `batchId`. -/
theorem enqueue_idempotent {α : Type} (qs : List (QJob α)) (k : String)
    (b b' : α) :
    (∀ j, qs.find? (fun j => j.id == k) = some j → enqueue qs k b = (qs, j)) ∧
    (qs.find? (fun j => j.id == k) = none →
      (enqueue (enqueue qs k b).1 k b').1 = (enqueue qs k b).1 ∧
      (enqueue (enqueue qs k b).1 k b').2 = (enqueue qs k b).2 ∧
      ((enqueue qs k b).1.countP fun j => j.id == k) = 1) ∧
    (∀ (qs' : List (QJob IncomingBatch)) (batch : IncomingBatch),
      ingestEnqueue qs' batch = enqueue qs' batch.batchId batch) := by
  refine ⟨fun j hj => ?_, fun hn => ?_, fun qs' batch => rfl⟩
  · unfold enqueue
    rw [hj]
  · have hq1 : (enqueue qs k b).1 = qs ++ [⟨k, b, .waiting, 0⟩] := by
      unfold enqueue
      rw [hn]
    have hj1 : (enqueue qs k b).2 = ⟨k, b, .waiting, 0⟩ := by
      unfold enqueue
      rw [hn]
    have hfind : ((qs ++ [(⟨k, b, .waiting, 0⟩ : QJob α)]).find?
        (fun j => j.id == k)) = some ⟨k, b, .waiting, 0⟩ := by
      rw [List.find?_append, hn]
      simp
    have hcount0 : (qs.countP fun j => j.id == k) = 0 := by
      rw [List.countP_eq_zero]
      intro a ha
      have := List.find?_eq_none.mp hn a ha
      simpa using this
    refine ⟨?_, ?_, ?_⟩
    · rw [hq1]
      unfold enqueue
      rw [hfind]
    · rw [hq1]
      unfold enqueue
      rw [hfind, hn]
    · rw [hq1, List.countP_append, hcount0]
      simp

/-- Witness for `enqueue_idempotent`: on the empty queue, enqueuing
batch id `"b1"` twice leaves exactly one job keyed `"b1"`. -/
theorem enqueue_idempotent_witness :
    ((enqueue (enqueue ([] : List (QJob IncomingBatch)) "b1"
        ⟨"b1", 0, [⟨"e1"⟩]⟩).1 "b1" ⟨"b1", 0, [⟨"e1"⟩]⟩).1.countP
      fun j => j.id == "b1") = 1 := by
  have h := (enqueue_idempotent ([] : List (QJob IncomingBatch)) "b1"
      ⟨"b1", 0, [⟨"e1"⟩]⟩ ⟨"b1", 0, [⟨"e1"⟩]⟩).2.1 rfl
  rw [h.1]
  exact h.2.2

/-- C6: with the configured options (3 attempts, exponential base
2000 ms, retain failed, purge completed), a job whose every attempt
signals retry is backed off with strictly increasing delays
2000 ms, 4000 ms, reaches the 3-attempt ceiling, is marked failed and
is retained (never silently dropped); a succeeding job completes and
may be purged. -/
theorem allFail_retry_policy {α : Type} (k : String) (b : α) :
    (runJob ingestionQueueOptions (fun _ => .retry)
        ingestionQueueOptions.attempts ⟨k, b, .waiting, 0⟩).1.state
      = .failed ∧
    (runJob ingestionQueueOptions (fun _ => .retry)
        ingestionQueueOptions.attempts ⟨k, b, .waiting, 0⟩).1.attemptsMade
      = 3 ∧
    (runJob ingestionQueueOptions (fun _ => .retry)
        ingestionQueueOptions.attempts ⟨k, b, .waiting, 0⟩).2
      = [2000, 4000] ∧
    List.Chain' (· < ·)
      (runJob ingestionQueueOptions (fun _ => .retry)
        ingestionQueueOptions.attempts ⟨k, b, .waiting, 0⟩).2 ∧
    retainedAfterFinish ingestionQueueOptions
      (runJob ingestionQueueOptions (fun _ => .retry)
        ingestionQueueOptions.attempts ⟨k, b, .waiting, 0⟩).1 = true ∧
    (runJob ingestionQueueOptions (fun _ => .ok)
        ingestionQueueOptions.attempts ⟨k, b, .waiting, 0⟩).1.state
      = .completed ∧
    retainedAfterFinish ingestionQueueOptions
      (runJob ingestionQueueOptions (fun _ => .ok)
        ingestionQueueOptions.attempts ⟨k, b, .waiting, 0⟩).1 = false := by
  refine ⟨rfl, rfl, rfl, ?_, rfl, rfl, rfl⟩
  show List.Chain' (· < ·) ([2000, 4000] : List ℕ)
  norm_num [List.chain'_cons]

/-! ## Heatmap repository (repositories/HeatmapRepository.ts)

`recordClick` computes the grid bucket, looks up an existing row by
`(projectId, url, gridX, gridY)` (`limit 1`), and either updates that
row (`set {count: existing.count + 1, lastClickAt: new Date()}`) or
inserts a fresh row with `count: 1`. The database table is modelled as
a list of rows plus the next auto-generated row id; `new Date()` is
passed in as an explicit `now`. JavaScript's `x || null` on the
optional columns maps falsy values (`0`, `""`) to `null`. -/

/-- The argument record of `HeatmapRepository.recordClick`. -/
structure ClickInput where
  projectId : String
  sessionId : String
  url : String
  xNorm : ℚ
  yNorm : ℚ
  pageX : Option ℚ
  pageY : Option ℚ
  selector : Option String
  tagName : Option String
  elementTextHash : Option String
  screenClass : Option String
  layoutHash : Option String
  pageWidth : Option ℚ
  pageHeight : Option ℚ
  viewportWidth : Option ℚ
  viewportHeight : Option ℚ
  deriving Repr, DecidableEq

/-- A row of the `heatmapClicks` table. `xNorm`/`yNorm` are stored via
`toString()` in the source; they are kept as the underlying numbers
here. `lastClickAt` is set on insert by the column default and on
update by `new Date()`. -/
structure BucketRow where
  id : ℕ
  projectId : String
  sessionId : String
  url : String
  gridX : ℤ
  gridY : ℤ
  xNorm : ℚ
  yNorm : ℚ
  pageX : Option ℚ
  pageY : Option ℚ
  selector : Option String
  tagName : Option String
  elementTextHash : Option String
  screenClass : Option String
  layoutHash : Option String
  pageWidth : Option ℚ
  pageHeight : Option ℚ
  viewportWidth : Option ℚ
  viewportHeight : Option ℚ
  count : ℕ
  lastClickAt : ℕ
  deriving Repr, DecidableEq

/-- The `heatmapClicks` table state: rows plus the next serial id. -/
structure HeatmapDb where
  rows : List BucketRow
  nextId : ℕ
  deriving Repr, DecidableEq

/-- JavaScript `v || null` on an optional numeric column: `0` is falsy
and becomes `null`. -/
def orNullNum (o : Option ℚ) : Option ℚ :=
  match o with
  | some v => if v = 0 then none else some v
  | none => none

/-- JavaScript `v || null` on an optional string column: `""` is falsy
and becomes `null`. -/
def orNullStr (o : Option String) : Option String :=
  match o with
  | some s => if s = "" then none else some s
  | none => none

/-- The `select ... where and(projectId, url, gridX, gridY) limit 1`
lookup of `recordClick`: the first matching row, if any. `sessionId`
is not part of the predicate. -/
def bucketLookup (db : HeatmapDb) (projectId url : String)
    (gridX gridY : ℤ) : Option BucketRow :=
  db.rows.find? fun r =>
    r.projectId == projectId && r.url == url &&
      r.gridX == gridX && r.gridY == gridY

/-- `HeatmapRepository.recordClick`: grid-bucket the coordinates, then
update the first matching row (`count + 1`, `lastClickAt := now`) or
insert a new row with `count := 1`. Returns the new table state and
the row the source returns (`updated[0]` / `result[0]`). -/
def recordClick (db : HeatmapDb) (c : ClickInput) (now : ℕ) :
    HeatmapDb × BucketRow :=
  let gridX := calculateGridBucket c.xNorm
  let gridY := calculateGridBucket c.yNorm
  match bucketLookup db c.projectId c.url gridX gridY with
  | some existing =>
      let updated := { existing with
        count := existing.count + 1
        lastClickAt := now }
      ({ db with
          rows := db.rows.map fun r => if r.id == existing.id then updated else r },
        updated)
  | none =>
      let newRow : BucketRow :=
        { id := db.nextId
          projectId := c.projectId
          sessionId := c.sessionId
          url := c.url
          gridX := gridX
          gridY := gridY
          xNorm := c.xNorm
          yNorm := c.yNorm
          pageX := orNullNum c.pageX
          pageY := orNullNum c.pageY
          selector := orNullStr c.selector
          tagName := orNullStr c.tagName
          elementTextHash := orNullStr c.elementTextHash
          screenClass := orNullStr c.screenClass
          layoutHash := orNullStr c.layoutHash
          pageWidth := orNullNum c.pageWidth
          pageHeight := orNullNum c.pageHeight
          viewportWidth := orNullNum c.viewportWidth
          viewportHeight := orNullNum c.viewportHeight
          count := 1
          lastClickAt := now }
      (⟨db.rows ++ [newRow], db.nextId + 1⟩, newRow)

/-- `HeatmapRepository.getHeatmapForSession`: all rows whose stored
`sessionId` equals the argument. -/
def getHeatmapForSession (db : HeatmapDb) (sessionId : String) :
    List BucketRow :=
  db.rows.filter fun r => r.sessionId == sessionId

/-- A click with the scenario's fixed identity fields and no optional
metadata. -/
def clickAt (x y : ℚ) : ClickInput :=
  { projectId := "p"
    sessionId := "s"
    url := "/u"
    xNorm := x
    yNorm := y
    pageX := none
    pageY := none
    selector := none
    tagName := none
    elementTextHash := none
    screenClass := none
    layoutHash := none
    pageWidth := none
    pageHeight := none
    viewportWidth := none
    viewportHeight := none }

/-- Four clicks processed sequentially from an empty table: three land
in grid bucket `(10, 20)`, the fourth in `(25, 25)`. -/
def scenarioDb : HeatmapDb :=
  (recordClick
    (recordClick
      (recordClick
        (recordClick ⟨[], 0⟩ (clickAt (21/100) (41/100)) 1).1
        (clickAt (215/1000) (405/1000)) 2).1
      (clickAt (205/1000) (415/1000)) 3).1
    (clickAt (1/2) (1/2)) 4).1

/-- C7: a click whose `(projectId, url, gridX, gridY)` key matches an
existing bucket increments exactly that bucket's count by 1 (no row
added or removed); a click matching no bucket appends a new row with
`count = 1` under the click's key; hence three same-bucket clicks and
one different-bucket click from an empty table yield rows
`(10,20) ↦ 3` and `(25,25) ↦ 1`. -/
theorem recordClick_upsert :
    (∀ (db : HeatmapDb) (c : ClickInput) (now : ℕ) (b : BucketRow),
      bucketLookup db c.projectId c.url (calculateGridBucket c.xNorm)
          (calculateGridBucket c.yNorm) = some b →
      (recordClick db c now).1.rows =
        db.rows.map (fun r => if r.id == b.id then
          { b with count := b.count + 1, lastClickAt := now } else r) ∧
      (recordClick db c now).1.rows.length = db.rows.length) ∧
    (∀ (db : HeatmapDb) (c : ClickInput) (now : ℕ),
      bucketLookup db c.projectId c.url (calculateGridBucket c.xNorm)
          (calculateGridBucket c.yNorm) = none →
      (recordClick db c now).1.rows = db.rows ++ [(recordClick db c now).2] ∧
      (recordClick db c now).2.count = 1 ∧
      (recordClick db c now).2.projectId = c.projectId ∧
      (recordClick db c now).2.url = c.url ∧
      (recordClick db c now).2.gridX = calculateGridBucket c.xNorm ∧
      (recordClick db c now).2.gridY = calculateGridBucket c.yNorm) ∧
    scenarioDb.rows.map (fun r => (r.gridX, r.gridY, r.count)) =
      [(10, 20, 3), (25, 25, 1)] := by
  refine ⟨fun db c now b h => ⟨?_, ?_⟩, fun db c now h => ?_, ?_⟩
  · simp only [recordClick, h]
  · simp only [recordClick, h, List.length_map]
  · refine ⟨?_, ?_, ?_, ?_, ?_, ?_⟩ <;> simp only [recordClick, h]
  · norm_num [scenarioDb, recordClick, bucketLookup, clickAt,
      calculateGridBucket, orNullNum, orNullStr]

/-- Witness for `recordClick_upsert`: a second click into an existing
bucket leaves the number of rows unchanged. -/
theorem recordClick_upsert_witness :
    (recordClick (recordClick ⟨[], 0⟩ (clickAt 0 0) 1).1
        (clickAt 0 0) 2).1.rows.length =
      (recordClick ⟨[], 0⟩ (clickAt 0 0) 1).1.rows.length := by
  have hb : bucketLookup (recordClick ⟨[], 0⟩ (clickAt 0 0) 1).1
      (clickAt 0 0).projectId (clickAt 0 0).url
      (calculateGridBucket (clickAt 0 0).xNorm)
      (calculateGridBucket (clickAt 0 0).yNorm)
      = some (recordClick ⟨[], 0⟩ (clickAt 0 0) 1).2 := by
    simp [recordClick, bucketLookup, clickAt, calculateGridBucket,
      orNullNum, orNullStr]
  exact (recordClick_upsert.1 _ (clickAt 0 0) 2 _ hb).2

/-- C8 counterexample: two clicks into the same bucket with selectors
`"first"` then `"second"`; the update branch runs (`count = 2`) but the
stored selector remains `"first"` — the metadata of the latest click is
not written. -/
theorem recordClick_metadata_counterexample :
    ((recordClick
        (recordClick ⟨[], 0⟩ { clickAt 0 0 with selector := some "first" } 1).1
        { clickAt 0 0 with selector := some "second" } 2).1.rows.map
      fun r => (r.count, r.selector)) = [(2, some "first")] ∧
    (some "first" : Option String) ≠ some "second" := by
  constructor
  · simp [recordClick, bucketLookup, clickAt, calculateGridBucket,
      orNullNum, orNullStr]
  · simp

/-- C8 (amended): when a click lands in an existing bucket, the update
writes only `count + 1` and `lastClickAt`; every other stored field —
in particular the descriptive metadata — keeps the value written when
the bucket was created. -/
theorem recordClick_update_only_count_time (db : HeatmapDb)
    (c : ClickInput) (now : ℕ) (b : BucketRow)
    (h : bucketLookup db c.projectId c.url (calculateGridBucket c.xNorm)
      (calculateGridBucket c.yNorm) = some b) :
    (recordClick db c now).2 =
      { b with count := b.count + 1, lastClickAt := now } ∧
    (recordClick db c now).2.selector = b.selector := by
  constructor <;> simp only [recordClick, h]

/-- Witness for `recordClick_update_only_count_time`: the second click
into the bucket yields the stored row with `count = 2`. -/
theorem recordClick_update_only_count_time_witness :
    (recordClick
      (recordClick ⟨[], 0⟩ { clickAt 0 0 with selector := some "first" } 1).1
      { clickAt 0 0 with selector := some "second" } 2).2.count = 2 := by
  have hb : bucketLookup
      (recordClick ⟨[], 0⟩ { clickAt 0 0 with selector := some "first" } 1).1
      ({ clickAt 0 0 with selector := some "second" } : ClickInput).projectId
      ({ clickAt 0 0 with selector := some "second" } : ClickInput).url
      (calculateGridBucket
        ({ clickAt 0 0 with selector := some "second" } : ClickInput).xNorm)
      (calculateGridBucket
        ({ clickAt 0 0 with selector := some "second" } : ClickInput).yNorm)
      = some (recordClick ⟨[], 0⟩
          { clickAt 0 0 with selector := some "first" } 1).2 := by
    simp [recordClick, bucketLookup, clickAt, calculateGridBucket,
      orNullNum, orNullStr]
  have h := (recordClick_update_only_count_time _
      { clickAt 0 0 with selector := some "second" } 2 _ hb).1
  rw [h]
  simp [recordClick, bucketLookup, clickAt, calculateGridBucket,
    orNullNum, orNullStr]

/-- C10: the bucket lookup key never involves `sessionId` (changing a
click's `sessionId` changes nothing about which branch runs), an update
leaves the stored `sessionId`, `xNorm`, `yNorm` untouched, a fresh
bucket stores the creating click's `sessionId`, `xNorm`, `yNorm`, and
the session read interface returns exactly the rows whose stored
(creator) `sessionId` matches. -/
theorem heatmap_sessionId_first_writer :
    (∀ (db : HeatmapDb) (c : ClickInput) (now : ℕ) (s' : String),
      (recordClick db { c with sessionId := s' } now).1.rows.length =
        (recordClick db c now).1.rows.length) ∧
    (∀ (db : HeatmapDb) (c : ClickInput) (now : ℕ) (b : BucketRow),
      bucketLookup db c.projectId c.url (calculateGridBucket c.xNorm)
          (calculateGridBucket c.yNorm) = some b →
      (recordClick db c now).2.sessionId = b.sessionId ∧
      (recordClick db c now).2.xNorm = b.xNorm ∧
      (recordClick db c now).2.yNorm = b.yNorm) ∧
    (∀ (db : HeatmapDb) (c : ClickInput) (now : ℕ),
      bucketLookup db c.projectId c.url (calculateGridBucket c.xNorm)
          (calculateGridBucket c.yNorm) = none →
      (recordClick db c now).2.sessionId = c.sessionId ∧
      (recordClick db c now).2.xNorm = c.xNorm ∧
      (recordClick db c now).2.yNorm = c.yNorm) ∧
    (∀ (db : HeatmapDb) (sid : String) (r : BucketRow),
      r ∈ getHeatmapForSession db sid ↔ r ∈ db.rows ∧ r.sessionId = sid) := by
  refine ⟨fun db c now s' => ?_, fun db c now b h => ?_, fun db c now h => ?_,
    fun db sid r => ?_⟩
  · cases h : bucketLookup db c.projectId c.url (calculateGridBucket c.xNorm)
        (calculateGridBucket c.yNorm) <;>
      simp [recordClick, h]
  · refine ⟨?_, ?_, ?_⟩ <;> simp only [recordClick, h]
  · refine ⟨?_, ?_, ?_⟩ <;> simp only [recordClick, h]
  · simp [getHeatmapForSession, List.mem_filter]

/-- Witness for `heatmap_sessionId_first_writer`: the bucket created by
the first click stores that click's `sessionId`. -/
theorem heatmap_sessionId_first_writer_witness :
    (recordClick ⟨[], 0⟩ (clickAt 0 0) 1).2.sessionId = "s" := by
  exact (heatmap_sessionId_first_writer.2.2.1 ⟨[], 0⟩ (clickAt 0 0) 1 rfl).1

/-! ## Batch validation (routes/ingest.ts)

The zod schemas `DimensionsSchema`, `RrwebPayloadSchema`,
`BaseEventSchema`, `RrwebEventSchema`, `ClickEventSchema`,
`EventSchema` (a `z.union` tried in order rrweb, click, base) and
`BatchSchema`, and the wrapper `validateBatch`. The input is arbitrary
structured data, modelled as a JSON value. Each schema is embedded as
an issue collector: it returns the list of `(path, message)` issues zod
would report (`error.errors`), empty exactly when parsing succeeds.
zod objects strip unknown keys and collect the issues of every
declared key; `z.union` succeeds if any option succeeds and otherwise
reports a single `Invalid input` issue at the union's path. Issue
message texts follow zod's defaults. -/

/-- Arbitrary structured (JSON) input data. -/
inductive JsonValue
  | null
  | bool (b : Bool)
  | num (q : ℚ)
  | str (s : String)
  | arr (elems : List JsonValue)
  | obj (fields : List (String × JsonValue))

/-- One segment of a zod issue path (object key or array index). -/
inductive PathSeg
  | key (k : String)
  | idx (i : ℕ)
  deriving Repr, DecidableEq

/-- One zod issue: its path and its message. -/
structure Issue where
  path : List PathSeg
  message : String
  deriving Repr, DecidableEq

/-- zod's `parsedType` name of a value, used in invalid-type messages. -/
def typeName : JsonValue → String
  | .null => "null"
  | .bool _ => "boolean"
  | .num _ => "number"
  | .str _ => "string"
  | .arr _ => "array"
  | .obj _ => "object"

/-- A single invalid-type issue. -/
def invalidType (expected : String) (p : List PathSeg) (v : JsonValue) :
    List Issue :=
  [⟨p, "Expected " ++ expected ++ ", received " ++ typeName v⟩]

/-- `z.string()`. -/
def checkString (p : List PathSeg) (v : JsonValue) : List Issue :=
  match v with
  | .str _ => []
  | _ => invalidType "string" p v

/-- `z.string().min(1)`. -/
def checkStringMin1 (p : List PathSeg) (v : JsonValue) : List Issue :=
  match v with
  | .str s => if 1 ≤ s.length then []
      else [⟨p, "String must contain at least 1 character(s)"⟩]
  | _ => invalidType "string" p v

/-- Hexadecimal digit test used by the UUID shape check. -/
def isHexDigit (ch : Char) : Bool :=
  "0123456789abcdefABCDEF".toList.contains ch

/-- Modelled from the spec: zod's `.uuid()` format validator (the zod
library is not repository code) — the 8-4-4-4-12 hyphenated hex shape
(`eventId` is a UUID). -/
def isUuid (s : String) : Bool :=
  let cs := s.toList
  cs.length == 36 &&
    (List.range 36).all fun i =>
      if i == 8 || i == 13 || i == 18 || i == 23 then cs.getD i ' ' == '-'
      else isHexDigit (cs.getD i ' ')

/-- Scanner for `isUrl`: accepts once a nonempty scheme, `://` and a
nonempty remainder have been seen. -/
def hasUrlShape : List Char → Bool → Bool
  | [], _ => false
  | ':' :: '/' :: '/' :: rest, seenScheme => seenScheme && !rest.isEmpty
  | _ :: cs, _ => hasUrlShape cs true

/-- Modelled from the spec: zod's `.url()` format validator (the zod
library delegates to the WHATWG URL constructor, not repository code) —
a nonempty scheme followed by `://` and a nonempty remainder. -/
def isUrl (s : String) : Bool :=
  hasUrlShape s.toList false

/-- `z.string().uuid()`. -/
def checkUuid (p : List PathSeg) (v : JsonValue) : List Issue :=
  match v with
  | .str s => if isUuid s then [] else [⟨p, "Invalid uuid"⟩]
  | _ => invalidType "string" p v

/-- `z.string().url()`. -/
def checkUrl (p : List PathSeg) (v : JsonValue) : List Issue :=
  match v with
  | .str s => if isUrl s then [] else [⟨p, "Invalid url"⟩]
  | _ => invalidType "string" p v

/-- `z.number()`. -/
def checkNumber (p : List PathSeg) (v : JsonValue) : List Issue :=
  match v with
  | .num _ => []
  | _ => invalidType "number" p v

/-- `z.number().int().positive()` (zod accumulates both checks). -/
def checkIntPositive (p : List PathSeg) (v : JsonValue) : List Issue :=
  match v with
  | .num q =>
      (if q.den == 1 then []
        else [⟨p, "Expected integer, received float"⟩]) ++
      (if 0 < q then [] else [⟨p, "Number must be greater than 0"⟩])
  | _ => invalidType "number" p v

/-- `z.number().min(0).max(1)` (zod accumulates both checks). -/
def checkNorm (p : List PathSeg) (v : JsonValue) : List Issue :=
  match v with
  | .num q =>
      (if 0 ≤ q then []
        else [⟨p, "Number must be greater than or equal to 0"⟩]) ++
      (if q ≤ 1 then []
        else [⟨p, "Number must be less than or equal to 1"⟩])
  | _ => invalidType "number" p v

/-- `z.record(z.any())`: any object. -/
def checkRecordAny (p : List PathSeg) (v : JsonValue) : List Issue :=
  match v with
  | .obj _ => []
  | _ => invalidType "object" p v

/-- `z.enum([...])`. -/
def checkEnum (vals : List String) (p : List PathSeg) (v : JsonValue) :
    List Issue :=
  match v with
  | .str s => if vals.contains s then [] else [⟨p, "Invalid enum value"⟩]
  | _ => [⟨p, "Invalid enum value"⟩]

/-- `z.literal(lit)` for a string literal. -/
def checkLiteral (lit : String) (p : List PathSeg) (v : JsonValue) :
    List Issue :=
  match v with
  | .str s => if s == lit then []
      else [⟨p, "Invalid literal value, expected " ++ lit⟩]
  | _ => [⟨p, "Invalid literal value, expected " ++ lit⟩]

/-- `.nullable()` on a schema. -/
def checkNullable (chk : List PathSeg → JsonValue → List Issue)
    (p : List PathSeg) (v : JsonValue) : List Issue :=
  match v with
  | .null => []
  | _ => chk p v

/-- First value bound to a key of a JSON object. -/
def lookupField (fields : List (String × JsonValue)) (k : String) :
    Option JsonValue :=
  match fields.find? (fun f => f.1 == k) with
  | some f => some f.2
  | none => none

/-- A required object key: missing keys yield zod's `Required` issue. -/
def reqField (fields : List (String × JsonValue)) (p : List PathSeg)
    (k : String) (chk : List PathSeg → JsonValue → List Issue) :
    List Issue :=
  match lookupField fields k with
  | some v => chk (p ++ [.key k]) v
  | none => [⟨p ++ [.key k], "Required"⟩]

/-- An `.optional()` object key: missing keys are fine. -/
def optField (fields : List (String × JsonValue)) (p : List PathSeg)
    (k : String) (chk : List PathSeg → JsonValue → List Issue) :
    List Issue :=
  match lookupField fields k with
  | some v => chk (p ++ [.key k]) v
  | none => []

/-- `DimensionsSchema`: `{w, h}` positive integers. -/
def checkDimensions (p : List PathSeg) (v : JsonValue) : List Issue :=
  match v with
  | .obj fields =>
      reqField fields p "w" checkIntPositive ++
      reqField fields p "h" checkIntPositive
  | _ => invalidType "object" p v

/-- `RrwebPayloadSchema`: `{type: number, data: record, timestamp?}`. -/
def checkRrwebPayload (p : List PathSeg) (v : JsonValue) : List Issue :=
  match v with
  | .obj fields =>
      reqField fields p "type" checkNumber ++
      reqField fields p "data" checkRecordAny ++
      optField fields p "timestamp" checkNumber
  | _ => invalidType "object" p v

/-- The `type` enum of `BaseEventSchema` — it includes `"click"` and
`"rrweb"`. -/
def eventTypes : List String :=
  ["pageview", "click", "input", "route", "custom", "session_snapshot",
    "rrweb"]

/-- The shared keys of `BaseEventSchema`; `.extend` overrides the
`type` key, so the check for `type` is a parameter. -/
def checkBaseFields (typeChk : List PathSeg → JsonValue → List Issue)
    (p : List PathSeg) (fields : List (String × JsonValue)) : List Issue :=
  reqField fields p "eventId" checkUuid ++
  reqField fields p "projectId" checkStringMin1 ++
  reqField fields p "clientId" checkStringMin1 ++
  reqField fields p "sessionId" checkStringMin1 ++
  reqField fields p "userId" (checkNullable checkString) ++
  reqField fields p "type" typeChk ++
  reqField fields p "timestamp" checkNumber ++
  reqField fields p "url" checkUrl ++
  reqField fields p "referrer" checkString ++
  reqField fields p "pageDimensions" checkDimensions ++
  reqField fields p "viewport" checkDimensions ++
  optField fields p "properties" checkRecordAny

/-- `BaseEventSchema` (unknown keys are stripped, not rejected). -/
def checkBaseEvent (p : List PathSeg) (v : JsonValue) : List Issue :=
  match v with
  | .obj fields => checkBaseFields (checkEnum eventTypes) p fields
  | _ => invalidType "object" p v

/-- `RrwebEventSchema = BaseEventSchema.extend {type: "rrweb", ...}`. -/
def checkRrwebEvent (p : List PathSeg) (v : JsonValue) : List Issue :=
  match v with
  | .obj fields =>
      checkBaseFields (checkLiteral "rrweb") p fields ++
      reqField fields p "replayId" checkStringMin1 ++
      reqField fields p "rrwebPayload" checkRrwebPayload ++
      reqField fields p "schemaVersion" checkString
  | _ => invalidType "object" p v

/-- `ClickEventSchema = BaseEventSchema.extend {type: "click", ...}`. -/
def checkClickEvent (p : List PathSeg) (v : JsonValue) : List Issue :=
  match v with
  | .obj fields =>
      checkBaseFields (checkLiteral "click") p fields ++
      reqField fields p "pageX" checkNumber ++
      reqField fields p "pageY" checkNumber ++
      reqField fields p "xNorm" checkNorm ++
      reqField fields p "yNorm" checkNorm ++
      reqField fields p "selector" checkStringMin1 ++
      reqField fields p "tagName" checkStringMin1 ++
      optField fields p "elementTextHash" checkString ++
      optField fields p "xpath" checkString ++
      optField fields p "screenClass"
        (checkEnum ["mobile", "tablet", "desktop"]) ++
      optField fields p "layoutHash" checkString
  | _ => invalidType "object" p v

/-- `EventSchema = z.union([RrwebEventSchema, ClickEventSchema,
BaseEventSchema])`: each option is tried; the union succeeds if any
option succeeds, else reports `Invalid input` at the event's path. -/
def checkEvent (p : List PathSeg) (v : JsonValue) : List Issue :=
  if (checkRrwebEvent p v).isEmpty then []
  else if (checkClickEvent p v).isEmpty then []
  else if (checkBaseEvent p v).isEmpty then []
  else [⟨p, "Invalid input"⟩]

/-- `z.array(EventSchema).min(1)`. -/
def checkEventsArray (p : List PathSeg) (v : JsonValue) : List Issue :=
  match v with
  | .arr elems =>
      (if 1 ≤ elems.length then []
        else [⟨p, "Array must contain at least 1 element(s)"⟩]) ++
      (elems.enum.map fun iv => checkEvent (p ++ [.idx iv.1]) iv.2).flatten
  | _ => invalidType "array" p v

/-- `BatchSchema`: `{batchId: min1, timestamp: number, events}`. -/
def checkBatch (v : JsonValue) : List Issue :=
  match v with
  | .obj fields =>
      reqField fields [] "batchId" checkStringMin1 ++
      reqField fields [] "timestamp" checkNumber ++
      reqField fields [] "events" checkEventsArray
  | _ => invalidType "object" [] v

/-- One issue rendered as the source renders it:
`` `${e.path.join(".")}: ${e.message}` ``. -/
def formatIssue (i : Issue) : String :=
  String.intercalate "." (i.path.map fun s =>
    match s with
    | .key k => k
    | .idx n => toString n) ++ ": " ++ i.message

/-- The result type of `validateBatch`: `{valid: true, data}` or
`{valid: false, error}`. -/
inductive ValidationOutcome
  | valid (data : JsonValue)
  | invalid (error : String)

/-- Whether the outcome is the `{valid: true}` variant. -/
def ValidationOutcome.isValid : ValidationOutcome → Bool
  | .valid _ => true
  | .invalid _ => false

/-- The error string of the `{valid: false}` variant, if any. -/
def ValidationOutcome.errMsg : ValidationOutcome → Option String
  | .valid _ => none
  | .invalid e => some e

/-- `validateBatch`: parse against `BatchSchema`; on success return the
data (zod's stripping of unknown keys is not modelled — no property
below concerns the returned data), on failure return the error string
that joins every issue. -/
def validateBatch (v : JsonValue) : ValidationOutcome :=
  if (checkBatch v).isEmpty then .valid v
  else .invalid ("Validation error: " ++
    String.intercalate ", " ((checkBatch v).map formatIssue))

/-- The rational 3/2 (= 1.5), given in normal form. -/
def threeHalves : ℚ := ⟨3, 2, by decide, by decide⟩

/-- The rational 1/2, given in normal form. -/
def oneHalf : ℚ := ⟨1, 2, by decide, by decide⟩

/-- A set of base-event fields that satisfies every `BaseEventSchema`
constraint, with the given `type` string. -/
def validBaseFields (ty : String) : List (String × JsonValue) :=
  [("eventId", .str "123e4567-e89b-12d3-a456-426614174000"),
   ("projectId", .str "p1"),
   ("clientId", .str "c1"),
   ("sessionId", .str "s1"),
   ("userId", .null),
   ("type", .str ty),
   ("timestamp", .num 1),
   ("url", .str "https://example.com/page"),
   ("referrer", .str ""),
   ("pageDimensions", .obj [("w", .num 800), ("h", .num 600)]),
   ("viewport", .obj [("w", .num 800), ("h", .num 600)])]

/-- A click event that is valid except that `xNorm = 1.5 > 1`. -/
def clickOutOfRange : JsonValue :=
  .obj (validBaseFields "click" ++
    [("pageX", .num 10), ("pageY", .num 20),
     ("xNorm", .num threeHalves),
     ("yNorm", .num oneHalf),
     ("selector", .str "#btn"), ("tagName", .str "BUTTON")])

/-- A batch whose `events` sequence is empty. -/
def emptyEventsBatch : JsonValue :=
  .obj [("batchId", .str "b1"), ("timestamp", .num 1), ("events", .arr [])]

/-- A batch containing only `clickOutOfRange`. -/
def outOfRangeBatch : JsonValue :=
  .obj [("batchId", .str "b1"), ("timestamp", .num 1),
    ("events", .arr [clickOutOfRange])]

/-- A batch with two malformed events (a string and a number). -/
def twoBadBatch : JsonValue :=
  .obj [("batchId", .str "b1"), ("timestamp", .num 1),
    ("events", .arr [.str "x", .num 7])]

/-- C2: the batch with an empty `events` sequence is rejected, but the
batch holding a click event with `xNorm = 3/2 = 1.5` is ACCEPTED: the
event fails `ClickEventSchema`, yet `EventSchema`'s `BaseEventSchema`
union branch — whose `type` enum includes `"click"` and which strips
the unknown click-specific keys — accepts it, so `validateBatch`
returns the valid variant. -/
theorem validateBatch_click_union_fallback :
    threeHalves = 3 / 2 ∧
    (validateBatch emptyEventsBatch).isValid = false ∧
    (validateBatch emptyEventsBatch).errMsg =
      some "Validation error: events: Array must contain at least 1 element(s)" ∧
    (checkClickEvent [.idx 0] clickOutOfRange).isEmpty = false ∧
    (checkBaseEvent [.idx 0] clickOutOfRange).isEmpty = true ∧
    (validateBatch outOfRangeBatch).isValid = true := by
  refine ⟨?_, by decide, by decide, by decide, by decide, by decide⟩
  have h := Rat.num_div_den threeHalves
  rw [← h]
  norm_num [threeHalves]

/-- C9: `validateBatch` is total with exactly two outcomes — the valid
variant when the schema walk finds no issue, otherwise the invalid
variant whose error string joins EVERY collected issue as
`path: message` — and on a batch with two bad events the string names
both. -/
theorem validateBatch_total_error_concat :
    (∀ v : JsonValue,
      (checkBatch v = [] ∧ validateBatch v = .valid v) ∨
      (checkBatch v ≠ [] ∧ validateBatch v = .invalid ("Validation error: " ++
        String.intercalate ", " ((checkBatch v).map formatIssue)))) ∧
    (validateBatch twoBadBatch).errMsg =
      some "Validation error: events.0: Invalid input, events.1: Invalid input"
      := by
  refine ⟨fun v => ?_, by decide⟩
  cases hl : checkBatch v with
  | nil =>
      left
      exact ⟨rfl, by simp [validateBatch, hl]⟩
  | cons a l =>
      right
      refine ⟨by simp [hl], ?_⟩
      simp [validateBatch, hl]

end OmniSdk
